import Mathlib

/-!
Verification of the VS_Seg repository: a shallow embedding in Lean 4 of the
Patch Locator & Extractor (`VSparams.get_safe_bounds`, `VSparams.extract_patch`,
`VSparams.get_center_of_mass_slice`), the parameter loader
(`VSparams.load_trained_state_of_model` / `new_load_trained_state_of_model`),
the recursive architecture builder (`UNet2d5_spvPA`), and the transformer
refinement block (`TransformerBottleneck3D`), together with theorems settling
the specification claims.

Numeric arrays are modelled over `ℚ` (exact rationals standing for the
floating-point values of the source); Python integers are `ℤ` or `ℕ`.
-/

/-! ## Patch Locator: `VSparams.get_safe_bounds`

Direct embedding of

```
def get_safe_bounds(self, c, margin, axis):
    window_size = 96
    half_window = window_size // 2
    start = max(0, c - half_window)
    end = start + window_size
    if end > axis:
        end = axis
        start = max(0, end - window_size)
    start = max(0, min(start, axis - window_size))
    end = start + window_size
    return start, end - 1
```

`margin` is accepted and ignored, exactly as in the source. -/

def get_safe_bounds (c _margin axis : ℤ) : ℤ × ℤ :=
  let window_size : ℤ := 96
  let half_window : ℤ := window_size / 2
  let start0 : ℤ := max 0 (c - half_window)
  let end0 : ℤ := start0 + window_size
  let end1 : ℤ := if end0 > axis then axis else end0
  let start1 : ℤ := if end0 > axis then max 0 (end1 - window_size) else start0
  let start2 : ℤ := max 0 (min start1 (axis - window_size))
  (start2, start2 + window_size - 1)

/-! ## Volumes and `VSparams.extract_patch`

A numpy 3D array is modelled as a shape triple together with a total indexing
function.  `sliceStart`/`sliceLen` give the semantics of a basic numpy slice
`a : b` with non-negative endpoints on an axis of extent `n`. -/

structure Volume where
  shape0 : ℕ
  shape1 : ℕ
  shape2 : ℕ
  data : ℤ → ℤ → ℤ → ℚ

def sliceStart (a : ℤ) (n : ℕ) : ℤ := min (max a 0) (n : ℤ)

def sliceLen (a b : ℤ) (n : ℕ) : ℕ := (sliceStart b n - sliceStart a n).toNat

/-- Embedding of `VSparams.extract_patch(volume, center, margin=48)`:
per-axis safe bounds from `get_safe_bounds`, then the slice
`volume[y1:y2+1, x1:x2+1, z1:z2+1]` (the source applies the x-derived bounds
to axis 1 and the y-derived bounds to axis 0, exactly as written). -/
def extract_patch (volume : Volume) (center : ℤ × ℤ × ℤ) (margin : ℤ) :
    Volume × ((ℤ × ℤ) × (ℤ × ℤ) × (ℤ × ℤ)) :=
  let x_max := volume.shape0
  let y_max := volume.shape1
  let z_max := volume.shape2
  let x := center.1
  let y := center.2.1
  let z := center.2.2
  let xb := get_safe_bounds x margin x_max
  let yb := get_safe_bounds y margin y_max
  let zb := get_safe_bounds z margin z_max
  let bounds := (xb, yb, zb)
  let patch : Volume :=
    { shape0 := sliceLen yb.1 (yb.2 + 1) volume.shape0
      shape1 := sliceLen xb.1 (xb.2 + 1) volume.shape1
      shape2 := sliceLen zb.1 (zb.2 + 1) volume.shape2
      data := fun i j k =>
        volume.data (sliceStart yb.1 volume.shape0 + i)
                    (sliceStart xb.1 volume.shape1 + j)
                    (sliceStart zb.1 volume.shape2 + k) }
  (patch, bounds)

/-! ## `VSparams.get_center_of_mass_slice`

The label volume is a 3D array of shape `(X, Y, num_slices)`; the source sums
each through-plane slice, falls back to uniform weights when the total mass is
zero, and returns `int(center_of_mass.round())` where numpy `round` is
round-half-to-even. -/

def roundHalfEven (q : ℚ) : ℤ :=
  let f := ⌊q⌋
  if q - f < 1 / 2 then f
  else if 1 / 2 < q - f then f + 1
  else if f % 2 = 0 then f else f + 1

def get_center_of_mass_slice (label : ℕ → ℕ → ℕ → ℚ) (X Y num_slices : ℕ) : ℤ :=
  let slice_masses : ℕ → ℚ := fun z =>
    ∑ x ∈ Finset.range X, ∑ y ∈ Finset.range Y, label x y z
  let total : ℚ := ∑ z ∈ Finset.range num_slices, slice_masses z
  let slice_weights : ℕ → ℚ :=
    if total = 0 then fun _ => 1 / (num_slices : ℚ)
    else fun z => slice_masses z / total
  let center_of_mass : ℚ := ∑ z ∈ Finset.range num_slices, slice_weights z * (z : ℚ)
  roundHalfEven center_of_mass

/-! ## Parameter loading

`VSparams.load_trained_state_of_model` calls
`model.load_state_dict(torch.load(...), strict=False)`;
`VSparams.new_load_trained_state_of_model` calls
`model.load_state_dict(torch.load(...))` with the default `strict=True`.
The state dict is modelled at the level the claims are about: a list of
(parameter name, shape) pairs.  `load_state_dict` follows the PyTorch
contract the source relies on: shape mismatches between entries sharing a
name are collected as errors regardless of `strict`; missing and unexpected
keys are errors only when `strict` is true; any collected error raises. -/

structure StateDict where
  entries : List (String × List ℕ)
deriving DecidableEq

def hasSizeMismatch (model sd : StateDict) : Bool :=
  model.entries.any fun e => sd.entries.any fun e2 => e.1 == e2.1 && !(e.2 == e2.2)

def hasMissingKey (model sd : StateDict) : Bool :=
  model.entries.any fun e => !(sd.entries.any fun e2 => e2.1 == e.1)

def hasUnexpectedKey (model sd : StateDict) : Bool :=
  sd.entries.any fun e2 => !(model.entries.any fun e => e.1 == e2.1)

def load_state_dict (model sd : StateDict) (strict : Bool) : Except String StateDict :=
  if hasSizeMismatch model sd
      || (strict && (hasMissingKey model sd || hasUnexpectedKey model sd)) then
    .error "Error(s) in loading state_dict"
  else
    .ok model

/-- Embedding of `VSparams.load_trained_state_of_model`: the checkpoint read from disk is
abstracted into the `blob` argument; the source hardcodes `strict=False`. -/
def load_trained_state_of_model (model blob : StateDict) : Except String StateDict :=
  load_state_dict model blob false

/-- Embedding of `VSparams.new_load_trained_state_of_model`: default `strict=True`. -/
def new_load_trained_state_of_model (model blob : StateDict) : Except String StateDict :=
  load_state_dict model blob true

/-! ## The architecture builder: `UNet2d5_spvPA`

The module tree produced by the builder is modelled as an inductive datatype
recording the constructor calls of the source.  `nn.Sequential` in this code
always receives two or three arguments, hence `seq2`/`seq3`.  The branch
`return nn.Identity` of `_get_up_layer` returns the *class* `nn.Identity`
(no parentheses in the source), which is not a module instance; it is
modelled by the distinguished value `identityClass`. -/

inductive NetModule where
  | convolution (dims inC outC strides kernel : ℕ) (transposed : Bool)
  | residualUnit (dims inC outC strides kernel subunits : ℕ) (lastConvOnly : Bool)
  | attentionBlock1 (dims inC outC kernel : ℕ)
  | attentionBlock2 (dims inC outC kernel : ℕ)
  | transformerB (inC embedDim numHeads hiddenDim : ℕ)
  | skipConnection (sub : NetModule)
  | seq2 (a b : NetModule)
  | seq3 (a b c : NetModule)
  | identityClass
deriving DecidableEq

/-- Predicate for `isinstance(m, nn.Module)`: everything the builder produces is a module
instance except the bare class object `nn.Identity`. -/
def NetModule.isInstance : NetModule → Bool
  | .identityClass => false
  | _ => true

/-- Errors raised during `UNet2d5_spvPA.__init__`:
a bare `assert` raises `AssertionError` with an empty message; `nn.Sequential`
raises `TypeError` when handed a non-instance; list indexing out of range
raises `IndexError`; the dead final branch of `_get_up_layer` raises
`NotImplementedError`. -/
inductive BuildError where
  | assertionError (msg : String)
  | typeError (msg : String)
  | indexError
  | notImplementedError
deriving DecidableEq

/-- Embedding of `nn.Sequential(a, b)`: `Module.add_module` rejects arguments that are not
module instances. -/
def mkSequential2 (a b : NetModule) : Except BuildError NetModule :=
  if a.isInstance && b.isInstance then .ok (.seq2 a b)
  else .error (.typeError "torch.nn.modules.linear.Identity is not a Module subclass")

/-- Embedding of `nn.Sequential(a, b, c)`. -/
def mkSequential3 (a b c : NetModule) : Except BuildError NetModule :=
  if a.isInstance && b.isInstance && c.isInstance then .ok (.seq3 a b c)
  else .error (.typeError "torch.nn.modules.linear.Identity is not a Module subclass")

/-- The constructor arguments of `UNet2d5_spvPA.__init__`.  Kernel sizes and
strides are tuples in the source; they are carried as opaque `ℕ` payloads
(the builder never inspects them).  `act` and `norm` are opaque as well. -/
structure Params where
  dimensions : ℕ
  in_channels : ℕ
  out_channels : ℕ
  channels : List ℕ
  strides : List ℕ
  kernel_sizes : List ℕ
  sample_kernel_sizes : List ℕ
  num_res_units : ℕ
  act : ℕ
  norm : ℕ
  dropout : ℚ
  attention_module : Bool
deriving DecidableEq

/-- Embedding of `UNet2d5_spvPA._get_att_layer`: `nn.Sequential(att1, att2)`. -/
def _get_att_layer (p : Params) (in_channels out_channels kernel_size : ℕ) :
    Except BuildError NetModule :=
  mkSequential2 (.attentionBlock1 p.dimensions in_channels out_channels kernel_size)
                (.attentionBlock2 p.dimensions in_channels out_channels kernel_size)

/-- Embedding of `UNet2d5_spvPA._get_down_layer`: a `ResidualUnit` when `num_res_units > 0`,
else a plain `Convolution`, both with `strides=1`. -/
def _get_down_layer (p : Params) (in_channels out_channels kernel_size : ℕ) : NetModule :=
  if p.num_res_units > 0 then
    .residualUnit p.dimensions in_channels out_channels 1 kernel_size p.num_res_units false
  else
    .convolution p.dimensions in_channels out_channels 1 kernel_size false

/-- Embedding of `UNet2d5_spvPA._get_downsample_layer`: strided `Convolution`,
`is_transposed=False`. -/
def _get_downsample_layer (p : Params) (in_channels out_channels strides kernel_size : ℕ) :
    NetModule :=
  .convolution p.dimensions in_channels out_channels strides kernel_size false

/-- Embedding of `UNet2d5_spvPA._get_upsample_layer`: strided `Convolution`,
`is_transposed=True`. -/
def _get_upsample_layer (p : Params) (in_channels out_channels strides up_kernel_size : ℕ) :
    NetModule :=
  .convolution p.dimensions in_channels out_channels strides up_kernel_size true

/-- Embedding of `UNet2d5_spvPA._get_up_layer`: four branches on
(`attention_module`, `num_res_units > 0`); the residual unit uses
`subunits=1` and `last_conv_only=is_top`; the final
disabled/disabled branch returns the bare class `nn.Identity`. -/
def _get_up_layer (p : Params) (in_channels out_channels kernel_size : ℕ) (is_top : Bool) :
    Except BuildError NetModule :=
  let ru : NetModule :=
    .residualUnit p.dimensions in_channels out_channels 1 kernel_size 1 is_top
  if p.attention_module = true ∧ p.num_res_units > 0 then
    match _get_att_layer p in_channels in_channels kernel_size with
    | .error e => .error e
    | .ok att_layer => mkSequential2 att_layer ru
  else if p.attention_module = true ∧ ¬p.num_res_units > 0 then
    _get_att_layer p in_channels in_channels kernel_size
  else if p.num_res_units > 0 ∧ ¬p.attention_module = true then
    .ok ru
  else if ¬p.attention_module = true ∧ ¬p.num_res_units > 0 then
    .ok .identityClass
  else
    .error .notImplementedError

/-- Embedding of `UNet2d5_spvPA._get_bottom_layer`: optional attention layer, then the
`TransformerBottleneck3D` with the hardcoded hyperparameters
`embed_dim=96`, `num_heads=4`, `hidden_dim=192`, then the convolutional
block from `_get_down_layer`, wrapped in `nn.Sequential(*modules)`. -/
def _get_bottom_layer (p : Params) (in_channels out_channels kernel_size : ℕ) :
    Except BuildError NetModule :=
  let conv := _get_down_layer p in_channels out_channels kernel_size
  let transformer : NetModule := .transformerB in_channels 96 4 192
  if p.attention_module then
    match _get_att_layer p in_channels in_channels kernel_size with
    | .error e => .error e
    | .ok att_layer => mkSequential3 att_layer transformer conv
  else
    mkSequential2 transformer conv

/-- Embedding of `_create_block` (the local recursive function of `UNet2d5_spvPA.__init__`):
at each depth take the heads of the four configuration lists, build the
down layer and strided downsampler, recurse on the list tails while more than
two channel entries remain (otherwise build the bottom layer), wrap the
resampled subtree in a `SkipConnection`, and append the up layer built for
`2*c` concatenated channels.  Out-of-range list indexing raises `IndexError`
exactly where the source would. -/
def _create_block (p : Params) (inc outc : ℕ)
    (channels strides kernel_sizes sample_kernel_sizes : List ℕ) (is_top : Bool) :
    Except BuildError NetModule :=
  match channels, strides, kernel_sizes, sample_kernel_sizes with
  | c :: c1 :: crest, s :: srest, k :: krest, sk :: skrest =>
    let down := _get_down_layer p inc c k
    let downsample := _get_downsample_layer p c c s sk
    let subblockE : Except BuildError NetModule :=
      match crest, krest with
      | _ :: _, _ => _create_block p c c1 (c1 :: crest) srest krest skrest false
      | [], k1 :: _ => _get_bottom_layer p c c1 k1
      | [], [] => .error .indexError
    match subblockE with
    | .error e => .error e
    | .ok subblock =>
      let upsample := _get_upsample_layer p c1 c s sk
      match mkSequential3 downsample subblock upsample with
      | .error e => .error e
      | .ok subblock_with_resampling =>
        match _get_up_layer p (2 * c) outc k is_top with
        | .error e => .error e
        | .ok up => mkSequential3 down (.skipConnection subblock_with_resampling) up
  | _, _, _, _ => .error .indexError

/-- Embedding of `UNet2d5_spvPA.__init__`: the chained assertion
`len(channels) == len(kernel_sizes) == len(strides) + 1 == len(sample_kernel_sizes) + 1`
(a bare `assert`, whose `AssertionError` carries an empty message) followed by
the top-level `_create_block` call. -/
def UNet2d5_spvPA_init (p : Params) : Except BuildError NetModule :=
  if p.channels.length = p.kernel_sizes.length ∧
      p.kernel_sizes.length = p.strides.length + 1 ∧
      p.strides.length + 1 = p.sample_kernel_sizes.length + 1 then
    _create_block p p.in_channels p.out_channels
      p.channels p.strides p.kernel_sizes p.sample_kernel_sizes true
  else
    .error (.assertionError "")

/-- Number of `AttentionBlock1` submodules in a built model: these are exactly
the modules on which `__init__` registers the forward hook
`hook_save_attention_map` when `attention_module` is enabled. -/
def countAtt1 : NetModule → ℕ
  | .attentionBlock1 _ _ _ _ => 1
  | .skipConnection m => countAtt1 m
  | .seq2 a b => countAtt1 a + countAtt1 b
  | .seq3 a b c => countAtt1 a + countAtt1 b + countAtt1 c
  | _ => 0

/-! ## The attention map registry

`UNet2d5_spvPA.hook_save_attention_map` fires once per `AttentionBlock1`
execution; `att_maps` is reset when it already holds one map per entry of
`channels` and the produced map is appended.  A complete forward evaluation
fires the hook once per `AttentionBlock1` module, in traversal order. -/

def hook_save_attention_map {α : Type} (numChannels : ℕ) (att_maps : List α) (m : α) :
    List α :=
  let maps := if att_maps.length = numChannels then [] else att_maps
  maps ++ [m]

/-- The registry state after the hook has fired once per element of `fires`
(in order), starting from `att_maps`. -/
def runHooks {α : Type} (numChannels : ℕ) (fires : List α) (att_maps : List α) : List α :=
  fires.foldl (hook_save_attention_map numChannels) att_maps

/-! ## `TransformerBottleneck3D`

A feature grid of shape `(C, H, W, D)` is a total function of channel and
spatial indices; a token sequence (the single-batch `[1, N, E]` tensor of the
source) is a total function of token and embedding indices.  The learnable
submodules created in `__init__` (`proj`, `attn`, `ffn`, `deproj`) carry
randomly initialized weights, so they enter the embedding as abstract
functions; `gamma` is initialized deterministically.  The transcendental
scalar functions used by the positional encoding (`torch.sin`, `torch.cos`,
and the `exp`/`log` combination producing `div_term`) are floating-point in
the source and are abstracted into `TrigOps`; no claim depends on their
values. -/

def Grid : Type := ℕ → ℕ → ℕ → ℕ → ℚ

def Tokens : Type := ℕ → ℕ → ℚ

structure TrigOps where
  sin : ℚ → ℚ
  cos : ℚ → ℚ
  divTerm : ℕ → ℕ → ℚ

/-- Embedding of `TransformerBottleneck3D._generate_positional_encoding`: token `n` of a
row-major `(H, W, D)` flattening has coordinates
`(n / (W*D), (n / D) % W, n % D)`; the embedding dimension is split into three
axis groups of `dim_each = E / 3` slots, even slots holding sine and odd slots
cosine of the axis coordinate scaled by `div_term (j / 2)`. -/
def generate_positional_encoding (trig : TrigOps) (H W D E : ℕ) : Tokens :=
  fun n e =>
    let dim_each := E / 3
    let axisOf := e / dim_each
    let j := e % dim_each
    let p : ℕ :=
      if axisOf = 0 then n / (W * D)
      else if axisOf = 1 then (n / D) % W
      else n % D
    if 3 * dim_each ≤ e then 0
    else if j % 2 = 0 then trig.sin ((p : ℚ) * trig.divTerm dim_each (j / 2))
    else trig.cos ((p : ℚ) * trig.divTerm dim_each (j / 2))

structure TransformerBottleneck3D where
  in_channels : ℕ
  embed_dim : ℕ
  num_heads : ℕ
  hidden_dim : ℕ
  proj : Grid → Grid
  attn : Tokens → Tokens
  ffn : Tokens → Tokens
  deproj : Grid → Grid
  gamma : ℚ

/-- Embedding of `TransformerBottleneck3D.__init__`: records the hyperparameters and the
(randomly initialized, hence abstract) submodules, and sets
`self.gamma = nn.Parameter(torch.tensor(0.1))`. -/
def TransformerBottleneck3D.init (in_channels embed_dim num_heads hidden_dim : ℕ)
    (proj : Grid → Grid) (attn : Tokens → Tokens) (ffn : Tokens → Tokens)
    (deproj : Grid → Grid) : TransformerBottleneck3D :=
  { in_channels := in_channels
    embed_dim := embed_dim
    num_heads := num_heads
    hidden_dim := hidden_dim
    proj := proj
    attn := attn
    ffn := ffn
    deproj := deproj
    gamma := 1 / 10 }

/-- Embedding of `TransformerBottleneck3D.forward`: project, flatten `(H, W, D)` row-major,
add the positional encoding, one self-attention pass with residual add, the
feed-forward network with residual add, un-flatten, de-project, and return
`x + gamma * x_out`. -/
def TransformerBottleneck3D.forward (tb : TransformerBottleneck3D) (trig : TrigOps)
    (H W D : ℕ) (x : Grid) : Grid :=
  let x_proj := tb.proj x
  let tokens0 : Tokens := fun n e => x_proj e (n / (W * D)) ((n / D) % W) (n % D)
  let pos := generate_positional_encoding trig H W D tb.embed_dim
  let tokens1 : Tokens := fun n e => tokens0 n e + pos n e
  let x2 := tb.attn tokens1
  let tokens2 : Tokens := fun n e => tokens1 n e + x2 n e
  let xf := tb.ffn tokens2
  let tokens3 : Tokens := fun n e => tokens2 n e + xf n e
  let x_back : Grid := fun c h w d => tokens3 (h * (W * D) + w * D + d) c
  let x_out := tb.deproj x_back
  fun c h w d => x c h w d + tb.gamma * x_out c h w d

/-- The `(in_channels, embed_dim, num_heads, hidden_dim)` tuples of the
`TransformerBottleneck3D` instances contained in a built module tree, in
traversal order. -/
def transformerParams : NetModule → List (ℕ × ℕ × ℕ × ℕ)
  | .transformerB i e h hd => [(i, e, h, hd)]
  | .skipConnection m => transformerParams m
  | .seq2 a b => transformerParams a ++ transformerParams b
  | .seq3 a b c => transformerParams a ++ transformerParams b ++ transformerParams c
  | _ => []

/-- Statement that `r` is `d` rounded so that it is divisible by 3: a multiple of 3 within
distance 2 of `d` (any rounding direction). -/
def isRoundingToMultipleOf3 (d r : ℕ) : Prop := r % 3 = 0 ∧ r ≤ d + 2 ∧ d ≤ r + 2

/-! ## Concrete instances used to exercise the theorems -/

/-- A necessary condition for an error message to name the mismatched
configuration lists: it must at least be a non-empty string. -/
def namesMismatchedLists (msg : String) : Prop := msg ≠ ""

/-- The default configuration of the repository
(`channels=(16,32,48,64,80,96)`, strides of length 5, attention enabled). -/
def defaultParams : Params :=
  { dimensions := 3
    in_channels := 1
    out_channels := 2
    channels := [16, 32, 48, 64, 80, 96]
    strides := [2, 2, 2, 2, 2]
    kernel_sizes := [3, 3, 3, 3, 3, 3]
    sample_kernel_sizes := [3, 3, 3, 3, 3]
    num_res_units := 1
    act := 0
    norm := 0
    dropout := 0
    attention_module := true }

/-- A construction with attention gating disabled and zero residual units. -/
def noAttNoResParams : Params :=
  { dimensions := 3
    in_channels := 1
    out_channels := 2
    channels := [16, 32]
    strides := [2]
    kernel_sizes := [3, 3]
    sample_kernel_sizes := [3]
    num_res_units := 0
    act := 0
    norm := 0
    dropout := 0
    attention_module := false }

/-- A configuration violating the list-length invariant
(`channels` has 3 entries but `strides` has 0). -/
def badLengthParams : Params :=
  { dimensions := 3
    in_channels := 1
    out_channels := 2
    channels := [16, 32, 48]
    strides := []
    kernel_sizes := [3, 3, 3]
    sample_kernel_sizes := [3]
    num_res_units := 1
    act := 0
    norm := 0
    dropout := 0
    attention_module := true }

/-- A valid configuration whose deepest channel count is 8 (not 96). -/
def smallChannelParams : Params :=
  { dimensions := 3
    in_channels := 1
    out_channels := 2
    channels := [4, 8]
    strides := [2]
    kernel_sizes := [3, 3]
    sample_kernel_sizes := [3]
    num_res_units := 1
    act := 0
    norm := 0
    dropout := 0
    attention_module := true }

/-- A transformer block instance with `gamma` set to zero. -/
def tbGammaZero : TransformerBottleneck3D :=
  { in_channels := 80
    embed_dim := 96
    num_heads := 4
    hidden_dim := 192
    proj := fun g => g
    attn := fun t => t
    ffn := fun t => t
    deproj := fun g => g
    gamma := 0 }

/-- Trivial trigonometric operations for concrete evaluation. -/
def trigZero : TrigOps :=
  { sin := fun _ => 0
    cos := fun _ => 0
    divTerm := fun _ _ => 1 }

/-- A concrete feature grid. -/
def gridConst : Grid := fun _ _ _ _ => 5

/-- A model whose parameters are a single named tensor of shape `[2, 2]`. -/
def modelOneParam : StateDict := ⟨[("weight", [2, 2])]⟩

/-- A saved blob holding `weight` plus a key the model does not have: its
parameter names mismatch the built architecture. -/
def blobExtraKey : StateDict := ⟨[("weight", [2, 2]), ("stale.bias", [3])]⟩

/-- A prediction volume of shape `(200, 200, 150)`. -/
def predVol : Volume := ⟨200, 200, 150, fun _ _ _ => 1⟩

/-- A co-registered label volume of the same shape. -/
def labelVol : Volume := ⟨200, 200, 150, fun _ _ _ => 0⟩

/-! # Theorems -/

/-! ## C1: safe bounds on an axis at least as long as the window -/

/-- C1: for every center coordinate `c`, every `margin`, and every axis extent
`axis ≥ 96`, the bounds `(start, end)` returned by `get_safe_bounds` satisfy
`0 ≤ start`, `end < axis`, and `end - start + 1 = 96`. -/
theorem get_safe_bounds_in_range (c margin axis : ℤ) (haxis : 96 ≤ axis) :
    0 ≤ (get_safe_bounds c margin axis).1 ∧
    (get_safe_bounds c margin axis).2 < axis ∧
    (get_safe_bounds c margin axis).2 - (get_safe_bounds c margin axis).1 + 1 = 96 := by
  simp only [get_safe_bounds]
  split_ifs <;> omega

/-- Witness for C1 at center 10, margin 48, axis extent 200. -/
theorem get_safe_bounds_in_range_witness :
    (96 : ℤ) ≤ 200 ∧
    (0 ≤ (get_safe_bounds 10 48 200).1 ∧
     (get_safe_bounds 10 48 200).2 < 200 ∧
     (get_safe_bounds 10 48 200).2 - (get_safe_bounds 10 48 200).1 + 1 = 96) :=
  ⟨by decide, get_safe_bounds_in_range 10 48 200 (by decide)⟩

/-! ## C10: axes shorter than the window -/

/-- C10: for every center `c ≥ 0`, every margin, and every axis extent
`0 < axis < 96`, `get_safe_bounds` returns exactly `(0, 95)`: the start is
clamped to 0, but the inclusive end 95 lies at or beyond the axis extent, so
the window overruns the short axis. -/
theorem get_safe_bounds_small_axis (c margin axis : ℤ) (hc : 0 ≤ c)
    (h0 : 0 < axis) (h96 : axis < 96) :
    get_safe_bounds c margin axis = (0, 95) ∧ axis ≤ 95 := by
  simp only [get_safe_bounds, Prod.mk.injEq]
  split_ifs <;> omega

/-- Witness for C10 at center 5, margin 48, axis extent 50. -/
theorem get_safe_bounds_small_axis_witness :
    (0 : ℤ) ≤ 5 ∧ (0 : ℤ) < 50 ∧ (50 : ℤ) < 96 ∧
    (get_safe_bounds 5 48 50 = (0, 95) ∧ (50 : ℤ) ≤ 95) :=
  ⟨by decide, by decide, by decide,
   get_safe_bounds_small_axis 5 48 50 (by decide) (by decide) (by decide)⟩

/-! ## C9: identical patch shapes from co-registered volumes -/

/-- C9: for every prediction volume and label volume of identical spatial
shape and every center coordinate, `extract_patch` with the same center and
margin derives the same bounds from both volumes and yields patches of
identical shape. -/
theorem extract_patch_same_shape (pred label : Volume) (center : ℤ × ℤ × ℤ)
    (margin : ℤ) (h0 : pred.shape0 = label.shape0) (h1 : pred.shape1 = label.shape1)
    (h2 : pred.shape2 = label.shape2) :
    (extract_patch pred center margin).1.shape0 = (extract_patch label center margin).1.shape0 ∧
    (extract_patch pred center margin).1.shape1 = (extract_patch label center margin).1.shape1 ∧
    (extract_patch pred center margin).1.shape2 = (extract_patch label center margin).1.shape2 ∧
    (extract_patch pred center margin).2 = (extract_patch label center margin).2 := by
  unfold extract_patch
  rw [h0, h1, h2]
  exact ⟨rfl, rfl, rfl, rfl⟩

/-- Witness for C9 on concrete `(200, 200, 150)` volumes at center
`(10, 10, 10)` with margin 48. -/
theorem extract_patch_same_shape_witness :
    predVol.shape0 = labelVol.shape0 ∧
    ((extract_patch predVol (10, 10, 10) 48).1.shape0
        = (extract_patch labelVol (10, 10, 10) 48).1.shape0 ∧
     (extract_patch predVol (10, 10, 10) 48).1.shape1
        = (extract_patch labelVol (10, 10, 10) 48).1.shape1 ∧
     (extract_patch predVol (10, 10, 10) 48).1.shape2
        = (extract_patch labelVol (10, 10, 10) 48).1.shape2 ∧
     (extract_patch predVol (10, 10, 10) 48).2
        = (extract_patch labelVol (10, 10, 10) 48).2) :=
  ⟨rfl, extract_patch_same_shape predVol labelVol (10, 10, 10) 48 rfl rfl rfl⟩

/-! ## C6: the all-zero label fallback of `get_center_of_mass_slice` -/

theorem roundHalfEven_ge_floor (q : ℚ) : ⌊q⌋ ≤ roundHalfEven q := by
  simp only [roundHalfEven]
  split_ifs <;> omega

theorem roundHalfEven_le_floor_add_one (q : ℚ) : roundHalfEven q ≤ ⌊q⌋ + 1 := by
  simp only [roundHalfEven]
  split_ifs <;> omega

theorem sum_range_id_q (n : ℕ) : ∑ i ∈ Finset.range n, (i : ℚ) = n * (n - 1) / 2 := by
  induction n with
  | zero => simp
  | succ m ih =>
    rw [Finset.sum_range_succ, ih]
    push_cast
    ring

theorem roundHalfEven_half_bounds (n : ℕ) (hn : 1 ≤ n) :
    0 ≤ roundHalfEven (((n : ℚ) - 1) / 2) ∧ roundHalfEven (((n : ℚ) - 1) / 2) < n := by
  have hq0 : (0 : ℚ) ≤ ((n : ℚ) - 1) / 2 := by
    have : (1 : ℚ) ≤ (n : ℚ) := by exact_mod_cast hn
    linarith
  have hlow : (0 : ℤ) ≤ roundHalfEven (((n : ℚ) - 1) / 2) :=
    le_trans (Int.floor_nonneg.mpr hq0) (roundHalfEven_ge_floor _)
  refine ⟨hlow, ?_⟩
  rcases Nat.lt_or_ge n 2 with h2 | h2
  · have hn1 : n = 1 := by omega
    subst hn1
    norm_num [roundHalfEven]
  · have hlt : ((n : ℚ) - 1) / 2 < ((n : ℤ) - 1 : ℤ) := by
      push_cast
      have : (2 : ℚ) ≤ (n : ℚ) := by exact_mod_cast h2
      linarith
    have hfloor : ⌊((n : ℚ) - 1) / 2⌋ < (n : ℤ) - 1 := Int.floor_lt.mpr hlt
    have := roundHalfEven_le_floor_add_one (((n : ℚ) - 1) / 2)
    omega

/-- C6: for every label volume whose in-range entries are all zero and whose
depth axis has `n ≥ 1` slices, `get_center_of_mass_slice` falls back to the
uniform-weight branch and returns a slice index in `[0, n)`; no division by a
zero total mass is performed. -/
theorem center_of_mass_all_zero_in_range (label : ℕ → ℕ → ℕ → ℚ) (X Y n : ℕ)
    (hn : 1 ≤ n) (hz : ∀ x y z, x < X → y < Y → z < n → label x y z = 0) :
    0 ≤ get_center_of_mass_slice label X Y n ∧
    get_center_of_mass_slice label X Y n < n := by
  have htot : (∑ z ∈ Finset.range n, ∑ x ∈ Finset.range X, ∑ y ∈ Finset.range Y,
      label x y z) = 0 := by
    refine Finset.sum_eq_zero fun z hzn => ?_
    refine Finset.sum_eq_zero fun x hx => ?_
    refine Finset.sum_eq_zero fun y hy => ?_
    exact hz x y z (Finset.mem_range.mp hx) (Finset.mem_range.mp hy)
      (Finset.mem_range.mp hzn)
  have hcom : (∑ z ∈ Finset.range n, 1 / (n : ℚ) * (z : ℚ)) = ((n : ℚ) - 1) / 2 := by
    rw [← Finset.mul_sum, sum_range_id_q]
    have hn0 : (n : ℚ) ≠ 0 := Nat.cast_ne_zero.mpr (by omega)
    field_simp
  simp only [get_center_of_mass_slice]
  rw [if_pos htot]
  rw [hcom]
  exact roundHalfEven_half_bounds n hn

/-- Witness for C6: a 4-slice all-zero label of spatial shape `(3, 3, 4)`. -/
theorem center_of_mass_all_zero_in_range_witness :
    (1 ≤ 4 ∧ ∀ x y z : ℕ, x < 3 → y < 3 → z < 4 → (fun _ _ _ => (0 : ℚ)) x y z = 0) ∧
    (0 ≤ get_center_of_mass_slice (fun _ _ _ => (0 : ℚ)) 3 3 4 ∧
     get_center_of_mass_slice (fun _ _ _ => (0 : ℚ)) 3 3 4 < 4) :=
  ⟨⟨by omega, fun _ _ _ _ _ _ => rfl⟩,
   center_of_mass_all_zero_in_range (fun _ _ _ => 0) 3 3 4 (by omega)
     (fun _ _ _ _ _ _ => rfl)⟩

/-! ## C3: the transformer refinement block at `gamma = 0` -/

/-- C3: for every input feature grid `x`, if the block's learnable scalar
`gamma` equals 0 then `TransformerBottleneck3D.forward` returns `x` exactly
(pointwise identity); and `__init__` sets `gamma` to `0.1`. -/
theorem transformer_gamma_zero_identity (tb : TransformerBottleneck3D) (trig : TrigOps)
    (H W D : ℕ) (x : Grid) (hg : tb.gamma = 0) :
    (∀ c h w d, tb.forward trig H W D x c h w d = x c h w d) ∧
    (∀ (inC embedDim numHeads hiddenDim : ℕ) (proj : Grid → Grid)
       (attnF ffnF : Tokens → Tokens) (deproj : Grid → Grid),
      (TransformerBottleneck3D.init inC embedDim numHeads hiddenDim
          proj attnF ffnF deproj).gamma = 1 / 10) := by
  constructor
  · intro c h w d
    simp only [TransformerBottleneck3D.forward, hg, zero_mul, add_zero]
  · intro _ _ _ _ _ _ _ _
    rfl

/-- Witness for C3 on a concrete block with `gamma = 0` and a constant grid. -/
theorem transformer_gamma_zero_identity_witness :
    tbGammaZero.gamma = 0 ∧
    TransformerBottleneck3D.forward tbGammaZero trigZero 2 2 2 gridConst 0 1 1 1
      = gridConst 0 1 1 1 :=
  ⟨rfl,
   (transformer_gamma_zero_identity tbGammaZero trigZero 2 2 2 gridConst rfl).1 0 1 1 1⟩

/-! ## C8: behavior of parameter loading on mismatched blobs -/

/-- C8 counterexample: `load_trained_state_of_model` hardcodes
`strict=False`, so a blob whose parameter names mismatch the model (here: an
unexpected key) loads without error even though no best-effort mode was
requested by the caller — refuting the claim that every name or shape
mismatch is a hard failure unless best-effort is explicitly requested. -/
theorem partial_load_silent :
    hasUnexpectedKey modelOneParam blobExtraKey = true ∧
    load_trained_state_of_model modelOneParam blobExtraKey = .ok modelOneParam := by
  exact ⟨by decide, rfl⟩

/-- C8 amended: shape mismatches between saved and model parameters always
raise; name mismatches raise only under `new_load_trained_state_of_model`
(strict loading), while `load_trained_state_of_model` silently tolerates
them. -/
theorem load_state_dict_behavior (model blob : StateDict) :
    (load_trained_state_of_model model blob = .error "Error(s) in loading state_dict"
       ↔ hasSizeMismatch model blob = true) ∧
    (new_load_trained_state_of_model model blob = .error "Error(s) in loading state_dict"
       ↔ (hasSizeMismatch model blob || hasMissingKey model blob
            || hasUnexpectedKey model blob) = true) := by
  constructor
  · unfold load_trained_state_of_model load_state_dict
    by_cases h : hasSizeMismatch model blob <;> simp [h]
  · unfold new_load_trained_state_of_model load_state_dict
    by_cases h1 : hasSizeMismatch model blob <;>
      by_cases h2 : hasMissingKey model blob <;>
        by_cases h3 : hasUnexpectedKey model blob <;>
          simp [h1, h2, h3]

/-! ## Structural helper lemmas about the builder -/

theorem down_layer_isInstance (p : Params) (i o k : ℕ) :
    (_get_down_layer p i o k).isInstance = true := by
  unfold _get_down_layer
  split_ifs <;> rfl

theorem down_layer_countAtt1 (p : Params) (i o k : ℕ) :
    countAtt1 (_get_down_layer p i o k) = 0 := by
  unfold _get_down_layer
  split_ifs <;> rfl

theorem att_layer_eq (p : Params) (i o k : ℕ) :
    _get_att_layer p i o k =
      .ok (.seq2 (.attentionBlock1 p.dimensions i o k)
                 (.attentionBlock2 p.dimensions i o k)) := rfl

theorem mkSequential2_ok (a b : NetModule) (ha : a.isInstance = true)
    (hb : b.isInstance = true) : mkSequential2 a b = .ok (.seq2 a b) := by
  unfold mkSequential2
  rw [ha, hb]
  rfl

theorem mkSequential3_ok (a b c : NetModule) (ha : a.isInstance = true)
    (hb : b.isInstance = true) (hc : c.isInstance = true) :
    mkSequential3 a b c = .ok (.seq3 a b c) := by
  unfold mkSequential3
  rw [ha, hb, hc]
  rfl

/-- The bottom layer always builds successfully: an attention layer (when
enabled), the transformer with the hardcoded `embed_dim=96`, `num_heads=4`,
`hidden_dim=192`, then the convolutional block. -/
theorem bottom_layer_eq (p : Params) (i o k : ℕ) :
    _get_bottom_layer p i o k =
      .ok (if p.attention_module then
             .seq3 (.seq2 (.attentionBlock1 p.dimensions i i k)
                          (.attentionBlock2 p.dimensions i i k))
                   (.transformerB i 96 4 192)
                   (_get_down_layer p i o k)
           else
             .seq2 (.transformerB i 96 4 192) (_get_down_layer p i o k)) := by
  have hconv := down_layer_isInstance p i o k
  unfold _get_bottom_layer
  cases hA : p.attention_module
  · simp only [hA, Bool.false_eq_true, if_false]
    exact mkSequential2_ok _ _ rfl hconv
  · simp only [hA, if_true, att_layer_eq]
    exact mkSequential3_ok _ _ _ rfl rfl hconv

/-- With attention gating enabled the up layer always builds successfully,
is a module instance, and contains exactly one `AttentionBlock1`. -/
theorem up_layer_att (p : Params) (hA : p.attention_module = true) (i o k : ℕ)
    (t : Bool) :
    ∃ u, _get_up_layer p i o k t = .ok u ∧ countAtt1 u = 1 ∧ u.isInstance = true := by
  unfold _get_up_layer
  by_cases hR : p.num_res_units > 0
  · refine ⟨.seq2 (.seq2 (.attentionBlock1 p.dimensions i i k)
        (.attentionBlock2 p.dimensions i i k))
        (.residualUnit p.dimensions i o 1 k 1 t), ?_, rfl, rfl⟩
    rw [if_pos ⟨hA, hR⟩, att_layer_eq]
    exact mkSequential2_ok _ _ rfl rfl
  · refine ⟨.seq2 (.attentionBlock1 p.dimensions i i k)
        (.attentionBlock2 p.dimensions i i k), ?_, rfl, rfl⟩
    rw [if_neg (by tauto), if_pos ⟨hA, hR⟩, att_layer_eq]

/-- With attention enabled and configuration lists of matching lengths,
`_create_block` succeeds and the resulting module tree contains exactly
`channels.length` `AttentionBlock1` submodules (one per up layer plus one at
the bottom). -/
theorem create_block_att_ok (p : Params) (hA : p.attention_module = true) :
    ∀ (channels strides kernels samples : List ℕ) (inc outc : ℕ) (t : Bool),
      channels.length = kernels.length →
      channels.length = strides.length + 1 →
      channels.length = samples.length + 1 →
      2 ≤ channels.length →
      ∃ m, _create_block p inc outc channels strides kernels samples t = .ok m ∧
        countAtt1 m = channels.length ∧ m.isInstance = true := by
  intro channels
  induction channels with
  | nil =>
    intro strides kernels samples inc outc t _ _ _ h2
    simp at h2
  | cons c ct ih =>
    intro strides kernels samples inc outc t hk hs hsam h2
    cases ct with
    | nil => simp at h2
    | cons c1 crest =>
      cases strides with
      | nil => simp at hs
      | cons s srest =>
        cases kernels with
        | nil => simp at hk
        | cons k krest =>
          cases samples with
          | nil => simp at hsam
          | cons sk skrest =>
            have hsub : ∃ sb,
                (match crest, krest with
                  | _ :: _, _ =>
                    _create_block p c c1 (c1 :: crest) srest krest skrest false
                  | [], k1 :: _ => _get_bottom_layer p c c1 k1
                  | [], [] => (.error .indexError : Except BuildError NetModule))
                  = .ok sb ∧
                countAtt1 sb = (c1 :: crest).length ∧ sb.isInstance = true := by
              cases crest with
              | nil =>
                cases krest with
                | nil => simp at hk
                | cons k1 krest2 =>
                  refine ⟨.seq3 (.seq2 (.attentionBlock1 p.dimensions c c k1)
                      (.attentionBlock2 p.dimensions c c k1))
                      (.transformerB c 96 4 192) (_get_down_layer p c c1 k1),
                      ?_, ?_, rfl⟩
                  · show _get_bottom_layer p c c1 k1 = _
                    rw [bottom_layer_eq]
                    simp [hA]
                  · simp [countAtt1, down_layer_countAtt1]
              | cons c2 crest2 =>
                have := ih srest krest skrest c c1 false
                  (by simpa using hk) (by simpa using hs) (by simpa using hsam)
                  (by simp)
                obtain ⟨sb, hsb, hc, hi⟩ := this
                exact ⟨sb, hsb, hc, hi⟩
            obtain ⟨sb, hsb, hcount, hinst⟩ := hsub
            obtain ⟨u, hu, hucount, huinst⟩ := up_layer_att p hA (2 * c) outc k t
            refine ⟨.seq3 (_get_down_layer p inc c k)
                (.skipConnection (.seq3 (_get_downsample_layer p c c s sk) sb
                  (_get_upsample_layer p c1 c s sk))) u, ?_, ?_, rfl⟩
            · show (match
                  (match crest, krest with
                    | _ :: _, _ =>
                      _create_block p c c1 (c1 :: crest) srest krest skrest false
                    | [], k1 :: _ => _get_bottom_layer p c c1 k1
                    | [], [] => (Except.error .indexError : Except BuildError NetModule))
                  with
                | Except.error e => Except.error e
                | Except.ok subblock =>
                  match mkSequential3 (_get_downsample_layer p c c s sk) subblock
                      (_get_upsample_layer p c1 c s sk) with
                  | Except.error e => Except.error e
                  | Except.ok swr =>
                    match _get_up_layer p (2 * c) outc k t with
                    | Except.error e => Except.error e
                    | Except.ok up =>
                      mkSequential3 (_get_down_layer p inc c k)
                        (NetModule.skipConnection swr) up) = _
              rw [hsb]
              show (match mkSequential3 (_get_downsample_layer p c c s sk) sb
                      (_get_upsample_layer p c1 c s sk) with
                  | Except.error e => Except.error e
                  | Except.ok swr =>
                    match _get_up_layer p (2 * c) outc k t with
                    | Except.error e => Except.error e
                    | Except.ok up =>
                      mkSequential3 (_get_down_layer p inc c k)
                        (NetModule.skipConnection swr) up) = _
              rw [mkSequential3_ok (_get_downsample_layer p c c s sk) sb
                (_get_upsample_layer p c1 c s sk) rfl hinst rfl]
              show (match _get_up_layer p (2 * c) outc k t with
                  | Except.error e => Except.error e
                  | Except.ok up =>
                    mkSequential3 (_get_down_layer p inc c k)
                      (NetModule.skipConnection
                        (NetModule.seq3 (_get_downsample_layer p c c s sk) sb
                          (_get_upsample_layer p c1 c s sk))) up) = _
              rw [hu]
              show mkSequential3 (_get_down_layer p inc c k)
                  (NetModule.skipConnection
                    (NetModule.seq3 (_get_downsample_layer p c c s sk) sb
                      (_get_upsample_layer p c1 c s sk))) u = _
              rw [mkSequential3_ok (_get_down_layer p inc c k)
                (NetModule.skipConnection
                  (NetModule.seq3 (_get_downsample_layer p c c s sk) sb
                    (_get_upsample_layer p c1 c s sk))) u
                (down_layer_isInstance p inc c k) rfl huinst]
            · simp [countAtt1, down_layer_countAtt1, hcount, hucount]

/-! ## Registry dynamics lemmas -/

theorem runHooks_cons {α : Type} (N : ℕ) (f : α) (fs maps : List α) :
    runHooks N (f :: fs) maps = runHooks N fs (hook_save_attention_map N maps f) := rfl

theorem runHooks_no_reset {α : Type} (N : ℕ) :
    ∀ (fires maps : List α), maps.length + fires.length ≤ N →
      runHooks N fires maps = maps ++ fires := by
  intro fires
  induction fires with
  | nil =>
    intro maps _
    simp [runHooks]
  | cons f fs ih =>
    intro maps h
    rw [runHooks_cons]
    have hne : ¬maps.length = N := by
      simp only [List.length_cons] at h
      omega
    have hhook : hook_save_attention_map N maps f = maps ++ [f] := by
      simp [hook_save_attention_map, hne]
    have hlen2 : (maps ++ [f]).length + fs.length ≤ N := by
      simp only [List.length_append, List.length_cons, List.length_nil] at h ⊢
      omega
    rw [hhook, ih (maps ++ [f]) hlen2]
    simp

theorem runHooks_complete {α : Type} (N : ℕ) (fires maps : List α)
    (hN : fires.length = N) (h0 : maps.length = 0 ∨ maps.length = N) :
    runHooks N fires maps = fires := by
  rcases h0 with h0 | h0
  · have hmaps : maps = [] := List.length_eq_zero.mp h0
    subst hmaps
    rw [runHooks_no_reset N fires [] (by simp [hN])]
    simp
  · cases fires with
    | nil =>
      have hN0 : N = 0 := by simpa using hN.symm
      have hmaps : maps = [] := List.length_eq_zero.mp (by omega)
      subst hmaps
      simp [runHooks]
    | cons f fs =>
      rw [runHooks_cons]
      have hhook : hook_save_attention_map N maps f = [f] := by
        simp [hook_save_attention_map, h0]
      rw [hhook, runHooks_no_reset N fs [f]
        (by simp only [List.length_cons] at hN; simp; omega)]
      simp

theorem runHooks_le {α : Type} (N : ℕ) (hN : 1 ≤ N) :
    ∀ (fires maps : List α), maps.length ≤ N → (runHooks N fires maps).length ≤ N := by
  intro fires
  induction fires with
  | nil =>
    intro maps h
    simpa [runHooks] using h
  | cons f fs ih =>
    intro maps h
    rw [runHooks_cons]
    apply ih
    by_cases he : maps.length = N
    · simp [hook_save_attention_map, he]
      omega
    · simp [hook_save_attention_map, he]
      omega

/-! ## C4: the attention map registry after a complete forward evaluation -/

/-- C4: for every valid configuration with attention gating enabled, the
built network contains exactly `len(channels)` hooked first-stage attention
gates (`AttentionBlock1` modules); a complete forward evaluation fires the
hook once per gate in traversal order, so starting from an empty registry or
from the full registry left by a previous complete evaluation, `att_maps`
afterwards holds exactly the `len(channels)` maps of this evaluation in
traversal order; and from any in-capacity state the registry length never
exceeds `len(channels)`. -/
theorem attention_registry_complete {α : Type} (p : Params)
    (hk : p.channels.length = p.kernel_sizes.length)
    (hs : p.channels.length = p.strides.length + 1)
    (hsam : p.channels.length = p.sample_kernel_sizes.length + 1)
    (h2 : 2 ≤ p.channels.length)
    (hA : p.attention_module = true) :
    ∃ m, UNet2d5_spvPA_init p = .ok m ∧ countAtt1 m = p.channels.length ∧
      (∀ fires maps0 : List α, fires.length = countAtt1 m →
        (maps0.length = 0 ∨ maps0.length = p.channels.length) →
        runHooks p.channels.length fires maps0 = fires) ∧
      (∀ fires maps0 : List α, maps0.length ≤ p.channels.length →
        (runHooks p.channels.length fires maps0).length ≤ p.channels.length) := by
  obtain ⟨m, hm, hc, _⟩ := create_block_att_ok p hA p.channels p.strides p.kernel_sizes
    p.sample_kernel_sizes p.in_channels p.out_channels true hk hs hsam h2
  refine ⟨m, ?_, hc, ?_, ?_⟩
  · unfold UNet2d5_spvPA_init
    rw [if_pos ⟨hk, by omega, by omega⟩]
    exact hm
  · intro fires maps0 hf h0
    exact runHooks_complete _ fires maps0 (by rw [hf, hc]) h0
  · intro fires maps0 hle
    exact runHooks_le _ (by omega) fires maps0 hle

/-- Witness for C4 at the default configuration, with attention maps drawn
from `ℕ`. -/
theorem attention_registry_complete_witness :
    (defaultParams.channels.length = defaultParams.kernel_sizes.length ∧
     defaultParams.channels.length = defaultParams.strides.length + 1 ∧
     defaultParams.channels.length = defaultParams.sample_kernel_sizes.length + 1 ∧
     2 ≤ defaultParams.channels.length ∧
     defaultParams.attention_module = true) ∧
    (∃ m, UNet2d5_spvPA_init defaultParams = .ok m ∧
       countAtt1 m = defaultParams.channels.length ∧
       (∀ fires maps0 : List ℕ, fires.length = countAtt1 m →
         (maps0.length = 0 ∨ maps0.length = defaultParams.channels.length) →
         runHooks defaultParams.channels.length fires maps0 = fires) ∧
       (∀ fires maps0 : List ℕ, maps0.length ≤ defaultParams.channels.length →
         (runHooks defaultParams.channels.length fires maps0).length
           ≤ defaultParams.channels.length)) :=
  ⟨⟨rfl, rfl, rfl, by decide, rfl⟩,
   @attention_registry_complete ℕ defaultParams rfl rfl rfl (by decide) rfl⟩

/-! ## C5: the construction-time length check -/

theorem mkSequential2_not_assertion (a b : NetModule) (s : String) :
    mkSequential2 a b ≠ .error (.assertionError s) := by
  unfold mkSequential2
  split_ifs <;> simp

theorem mkSequential3_not_assertion (a b c : NetModule) (s : String) :
    mkSequential3 a b c ≠ .error (.assertionError s) := by
  unfold mkSequential3
  split_ifs <;> simp

theorem bottom_layer_not_assertion (p : Params) (i o k : ℕ) (s : String) :
    _get_bottom_layer p i o k ≠ .error (.assertionError s) := by
  rw [bottom_layer_eq]
  simp

theorem up_layer_not_assertion (p : Params) (i o k : ℕ) (t : Bool) (s : String) :
    _get_up_layer p i o k t ≠ .error (.assertionError s) := by
  unfold _get_up_layer
  split_ifs
  · rw [att_layer_eq]
    exact mkSequential2_not_assertion _ _ s
  · rw [att_layer_eq]
    simp
  · simp
  · simp
  · simp

/-- The error-propagation chain of the body of `_create_block` never produces
an `AssertionError`. -/
theorem chain_not_assertion (subE upE : Except BuildError NetModule)
    (down downsample upsample : NetModule)
    (hsub : ∀ s, subE ≠ .error (.assertionError s))
    (hup : ∀ s, upE ≠ .error (.assertionError s)) (s : String) :
    (match subE with
     | Except.error e => Except.error e
     | Except.ok subblock =>
       match mkSequential3 downsample subblock upsample with
       | Except.error e => Except.error e
       | Except.ok swr =>
         match upE with
         | Except.error e => Except.error e
         | Except.ok up => mkSequential3 down (NetModule.skipConnection swr) up)
      ≠ .error (.assertionError s) := by
  cases subE with
  | error e =>
    intro h
    have he : e = .assertionError s := by simpa using h
    exact hsub s (by rw [he])
  | ok sb =>
    show (match mkSequential3 downsample sb upsample with
        | Except.error e => Except.error e
        | Except.ok swr =>
          match upE with
          | Except.error e => Except.error e
          | Except.ok up => mkSequential3 down (NetModule.skipConnection swr) up)
        ≠ .error (.assertionError s)
    cases h3 : mkSequential3 downsample sb upsample with
    | error e =>
      intro h
      have he : e = .assertionError s := by simpa using h
      exact mkSequential3_not_assertion downsample sb upsample s (by rw [h3, he])
    | ok swr =>
      cases upE with
      | error e =>
        intro h
        have he : e = .assertionError s := by simpa using h
        exact hup s (by rw [he])
      | ok u =>
        show mkSequential3 down (NetModule.skipConnection swr) u
            ≠ .error (.assertionError s)
        exact mkSequential3_not_assertion down (.skipConnection swr) u s

/-- `_create_block` never raises an `AssertionError`: its failure modes are
`IndexError` and `TypeError` only. -/
theorem create_block_not_assertion (p : Params) :
    ∀ (channels strides kernels samples : List ℕ) (inc outc : ℕ) (t : Bool) (s : String),
      _create_block p inc outc channels strides kernels samples t ≠
        .error (.assertionError s) := by
  intro channels
  induction channels with
  | nil =>
    intro strides kernels samples inc outc t s
    simp [_create_block]
  | cons c ct ih =>
    intro strides kernels samples inc outc t s
    cases ct with
    | nil => simp [_create_block]
    | cons c1 crest =>
      cases strides with
      | nil => simp [_create_block]
      | cons st srest =>
        cases kernels with
        | nil => simp [_create_block]
        | cons k krest =>
          cases samples with
          | nil => simp [_create_block]
          | cons sk skrest =>
            show (match
                (match crest, krest with
                  | _ :: _, _ =>
                    _create_block p c c1 (c1 :: crest) srest krest skrest false
                  | [], k1 :: _ => _get_bottom_layer p c c1 k1
                  | [], [] => (Except.error .indexError : Except BuildError NetModule))
                with
              | Except.error e => Except.error e
              | Except.ok subblock =>
                match mkSequential3 (_get_downsample_layer p c c st sk) subblock
                    (_get_upsample_layer p c1 c st sk) with
                | Except.error e => Except.error e
                | Except.ok swr =>
                  match _get_up_layer p (2 * c) outc k t with
                  | Except.error e => Except.error e
                  | Except.ok up =>
                    mkSequential3 (_get_down_layer p inc c k)
                      (NetModule.skipConnection swr) up)
              ≠ .error (.assertionError s)
            apply chain_not_assertion
            · intro s2
              cases crest with
              | nil =>
                cases krest with
                | nil => simp
                | cons k1 kr => exact bottom_layer_not_assertion p c c1 k1 s2
              | cons c2 cr => exact ih srest krest skrest c c1 false s2
            · intro s2
              exact up_layer_not_assertion p (2 * c) outc k t s2

/-- C5 counterexample: the concrete mismatched configuration raises a bare
`AssertionError` at construction time whose message is the empty string — the
error does not name the mismatched lists. -/
theorem assert_error_message_empty :
    UNet2d5_spvPA_init badLengthParams = .error (.assertionError "") ∧
    ¬namesMismatchedLists "" := by
  constructor
  · unfold UNet2d5_spvPA_init
    rw [if_neg (by decide)]
  · intro h
    exact h rfl

/-- C5 amended: every configuration violating the list-length invariant
raises an error at construction time, before any volume is processed, but it
is a bare `AssertionError` carrying no message (so it does not name the
mismatched lists); every configuration satisfying the invariant passes the
check and never raises an `AssertionError`. -/
theorem config_length_check (p : Params) :
    (¬(p.channels.length = p.kernel_sizes.length ∧
        p.kernel_sizes.length = p.strides.length + 1 ∧
        p.strides.length + 1 = p.sample_kernel_sizes.length + 1) →
      UNet2d5_spvPA_init p = .error (.assertionError "")) ∧
    ((p.channels.length = p.kernel_sizes.length ∧
        p.kernel_sizes.length = p.strides.length + 1 ∧
        p.strides.length + 1 = p.sample_kernel_sizes.length + 1) →
      ∀ s, UNet2d5_spvPA_init p ≠ .error (.assertionError s)) := by
  constructor
  · intro h
    unfold UNet2d5_spvPA_init
    rw [if_neg h]
  · intro h s
    unfold UNet2d5_spvPA_init
    rw [if_pos h]
    exact create_block_not_assertion p _ _ _ _ _ _ _ s

/-- Witness for C5: the invariant-violating configuration raises the bare
assertion error; the default (valid) configuration raises no assertion
error. -/
theorem config_length_check_witness :
    UNet2d5_spvPA_init badLengthParams = .error (.assertionError "") ∧
    (∀ s, UNet2d5_spvPA_init defaultParams ≠ .error (.assertionError s)) :=
  ⟨(config_length_check badLengthParams).1 (by decide),
   (config_length_check defaultParams).2 (by decide)⟩

/-! ## C2: the disabled-attention / disabled-residual up layer -/

/-- C2 (code bug): with attention gating disabled and zero residual units,
`_get_up_layer` returns the bare class `nn.Identity` rather than an instance
`nn.Identity()`; the class is not a module instance, so the
`nn.Sequential(down, SkipConnection(...), up)` call of `_create_block`
raises `TypeError` and network construction fails instead of producing a
structural no-op up layer. -/
theorem up_layer_identity_class_bug :
    _get_up_layer noAttNoResParams 64 16 3 true = .ok .identityClass ∧
    NetModule.isInstance .identityClass = false ∧
    UNet2d5_spvPA_init noAttNoResParams =
      .error (.typeError "torch.nn.modules.linear.Identity is not a Module subclass") := by
  refine ⟨?_, rfl, ?_⟩
  · rfl
  · rfl

/-! ## C7: the bottom block terminating the recursion -/

/-- C7 counterexample: for the valid two-entry configuration with
`channels = [4, 8]` the deepest channel count is 8, yet the transformer block
built at the bottom of the network has embedding dimension 96, which is not
8 rounded to a multiple of 3 (the hyperparameters are hardcoded, not derived
from the channel list). -/
theorem bottom_embed_dim_not_rounded :
    Except.map transformerParams (UNet2d5_spvPA_init smallChannelParams)
      = .ok [(4, 96, 4, 192)] ∧
    ¬isRoundingToMultipleOf3 8 96 := by
  constructor
  · rfl
  · intro h
    obtain ⟨_, h1, _⟩ := h
    omega

/-- C7 amended: with exactly two channel entries remaining, `_create_block`
terminates the recursion by building the bottom layer as its subblock, and
the bottom layer is an optional attention gate followed by the transformer
refinement block with the constant hyperparameters `embed_dim = 96`
(divisible by 3, equal to the deepest channel count only in the default
configuration), `num_heads = 4`, `hidden_dim = 192 = 2 * 96`, followed by the
final convolutional block. -/
theorem bottom_layer_structure (p : Params) (inc outc c0 c1 s k0 k1 sk : ℕ) (t : Bool) :
    _create_block p inc outc [c0, c1] [s] [k0, k1] [sk] t =
      (match _get_bottom_layer p c0 c1 k1 with
       | Except.error e => Except.error e
       | Except.ok subblock =>
         match mkSequential3 (_get_downsample_layer p c0 c0 s sk) subblock
             (_get_upsample_layer p c1 c0 s sk) with
         | Except.error e => Except.error e
         | Except.ok swr =>
           match _get_up_layer p (2 * c0) outc k0 t with
           | Except.error e => Except.error e
           | Except.ok up =>
             mkSequential3 (_get_down_layer p inc c0 k0)
               (NetModule.skipConnection swr) up) ∧
    _get_bottom_layer p c0 c1 k1 =
      .ok (if p.attention_module then
             .seq3 (.seq2 (.attentionBlock1 p.dimensions c0 c0 k1)
                          (.attentionBlock2 p.dimensions c0 c0 k1))
                   (.transformerB c0 96 4 192) (_get_down_layer p c0 c1 k1)
           else .seq2 (.transformerB c0 96 4 192) (_get_down_layer p c0 c1 k1)) ∧
    (96 % 3 = 0 ∧ 192 = 2 * 96) :=
  ⟨rfl, bottom_layer_eq p c0 c1 k1, rfl, rfl⟩
